import Mathlib

/-!
Shallow embedding of the PipeStock inventory-ledger core
(`src/app/stock.py`, `src/app/schemas.py`, `src/app/models.py`,
`src/app/routers/transactions.py`, `src/app/routers/items.py`,
`src/app/main.py`).

Conventions of the embedding:
* UUID idempotency keys (`request_id`) are modelled as `Nat`.
* Error messages (Japanese interpolated strings) are dropped; an
  `AppError` keeps the machine-readable `code` and HTTP `status_code`,
  which is all the spec claims talk about.
* Database state for one product is a `ProductState`: the `Item.active`
  flag, the optional `StockHead.version` row, and the committed
  `inventory_tx` rows in insertion order.  A SQL transaction that is
  rolled back leaves the committed state untouched, so fallible
  operations return `Except AppError` and only the `ok` branch carries
  a successor state.
* Monetary amounts (`unit_price`) are modelled as `Int`; the source
  uses Python floats (flagged by the spec itself as a latent precision
  issue, not a contract), and every claim under proof is about the
  aggregation structure, not float rounding.
-/

namespace PipeStock

/-- Values of the `inventory_tx.bucket` column (`src/app/models.py`). -/
inductive Bucket where
  | ON_HAND
  | RESERVED
deriving DecidableEq, Repr

/-- Resolved server-side transaction types stored in `inventory_tx.type`. -/
inductive TxType where
  | IN
  | OUT
  | ADJUST
  | RESERVE
  | UNRESERVE
deriving DecidableEq, Repr

/-- The `direction` literal of an ADJUST intent (`src/app/schemas.py`). -/
inductive Direction where
  | INCREASE
  | DECREASE
deriving DecidableEq, Repr

/-- A committed ledger row: the product-local fields of the `InventoryTx`
ORM model (`src/app/models.py`).  The surrogate `id`, the `item_id`
foreign key and the server-assigned timestamp play no role in any claim
and are omitted. -/
structure InventoryTx where
  type : TxType
  bucket : Bucket
  qty_delta : Int
  reason : Option String := none
  request_id : Option Nat := none
deriving DecidableEq, Repr

/-- The derived (never persisted) stock projection
(`StockLevel` dataclass in `src/app/stock.py`). -/
structure StockLevel where
  on_hand : Int
  reserved : Int
  available : Int
deriving DecidableEq, Repr

/-- An application error (`AppError` in `src/app/errors.py`), message
text omitted. -/
structure AppError where
  code : String
  status_code : Nat
deriving DecidableEq, Repr

/-- Sum of `qty_delta` over the rows of one bucket: the per-bucket
`SUM(qty_delta) GROUP BY bucket` aggregate issued by `calc_stock`
(`src/app/stock.py`), with an empty group contributing 0 (the
`coalesce`, and the projection loop that leaves the accumulator at 0
when a bucket has no row). -/
def sumBucket (entries : List InventoryTx) (b : Bucket) : Int :=
  ((entries.filter (fun e => e.bucket == b)).map (fun e => e.qty_delta)).sum

/-- Embedding of `calc_stock` (`src/app/stock.py`): fold the ledger rows
of one product into on-hand / reserved / available. -/
def calc_stock (entries : List InventoryTx) : StockLevel :=
  let on_hand := sumBucket entries Bucket.ON_HAND
  let reserved := sumBucket entries Bucket.RESERVED
  { on_hand := on_hand, reserved := reserved, available := on_hand - reserved }

/-- A validated transaction intent: the `TxCreate` pydantic model of
`src/app/schemas.py` after field and model validation. -/
structure TxCreate where
  type : TxType
  qty : Int
  direction : Option Direction := none
  reason : Option String := none
  request_id : Option Nat := none
deriving DecidableEq, Repr

/-- A raw client intent before pydantic validation: `type` and
`direction` arrive as strings, `qty` as an arbitrary integer. -/
structure RawTx where
  type : String
  qty : Int
  direction : Option String := none
  reason : Option String := none
  request_id : Option Nat := none
deriving DecidableEq, Repr

/-- Parse the `type` literal of `TxCreate`
(`Literal["IN", "OUT", "ADJUST", "RESERVE", "UNRESERVE"]`). -/
def parseTxType : String → Option TxType
  | "IN" => some TxType.IN
  | "OUT" => some TxType.OUT
  | "ADJUST" => some TxType.ADJUST
  | "RESERVE" => some TxType.RESERVE
  | "UNRESERVE" => some TxType.UNRESERVE
  | _ => none

/-- Parse the `direction` literal of `TxCreate`
(`Literal["INCREASE", "DECREASE"]`). -/
def parseDirection : String → Option Direction
  | "INCREASE" => some Direction.INCREASE
  | "DECREASE" => some Direction.DECREASE
  | _ => none

/-- Pydantic validation of a raw intent into a `TxCreate`
(`src/app/schemas.py`): the `type` literal, `qty >= 1` (`Field ge=1`),
the `direction` literal when present, and the `check_direction` model
validator (ADJUST requires a direction, every other type rejects one).
Any failure surfaces as the `VALIDATION_ERROR` envelope with HTTP 400
(the `RequestValidationError` handler in `src/app/main.py`). -/
def TxCreate.validate (r : RawTx) : Except AppError TxCreate :=
  match parseTxType r.type with
  | none => .error { code := "VALIDATION_ERROR", status_code := 400 }
  | some ty =>
    if r.qty < 1 then .error { code := "VALIDATION_ERROR", status_code := 400 }
    else
      match r.direction with
      | none =>
        if ty = TxType.ADJUST then
          .error { code := "VALIDATION_ERROR", status_code := 400 }
        else
          .ok { type := ty, qty := r.qty, direction := none,
                reason := r.reason, request_id := r.request_id }
      | some d =>
        match parseDirection d with
        | none => .error { code := "VALIDATION_ERROR", status_code := 400 }
        | some dir =>
          if ty = TxType.ADJUST then
            .ok { type := ty, qty := r.qty, direction := some dir,
                  reason := r.reason, request_id := r.request_id }
          else
            .error { code := "VALIDATION_ERROR", status_code := 400 }

/-- Embedding of `resolve_tx` (`src/app/stock.py`): derive
`(db_type, bucket, qty_delta)` from a validated intent.  ADJUST is
handled first (sign from the direction), every other type goes through
the `_TX_RESOLVE` table. -/
def resolve_tx (tx : TxCreate) : TxType × Bucket × Int :=
  if tx.type = TxType.ADJUST then
    let sign : Int := if tx.direction = some Direction.INCREASE then 1 else -1
    (TxType.ADJUST, Bucket.ON_HAND, sign * tx.qty)
  else
    match tx.type with
    | TxType.IN => (TxType.IN, Bucket.ON_HAND, tx.qty)
    | TxType.OUT => (TxType.OUT, Bucket.ON_HAND, -tx.qty)
    | TxType.RESERVE => (TxType.RESERVE, Bucket.RESERVED, tx.qty)
    | TxType.UNRESERVE => (TxType.UNRESERVE, Bucket.RESERVED, -tx.qty)
    | TxType.ADJUST => (TxType.ADJUST, Bucket.ON_HAND, tx.qty)

/-- The ledger row built for one intent inside the persistence loop of
`create_txs` (`src/app/stock.py`, the `InventoryTx(...)` constructor
call). -/
def mkEntry (t : TxCreate) : InventoryTx :=
  { type := (resolve_tx t).1,
    bucket := (resolve_tx t).2.1,
    qty_delta := (resolve_tx t).2.2,
    reason := t.reason,
    request_id := t.request_id }

/-- Committed database state of a single product: the `Item.active`
flag, the product's `stock_heads` row when it exists (its `version`),
and the committed `inventory_tx` rows in insertion order. -/
structure ProductState where
  active : Bool
  head : Option Nat
  entries : List InventoryTx
deriving DecidableEq, Repr

/-- The idempotency keys present on a list of ledger rows
(`inventory_tx.request_id`, ignoring NULLs — the column is nullable and
unique, `src/app/models.py`). -/
def usedKeys (entries : List InventoryTx) : List Nat :=
  entries.filterMap (fun e => e.request_id)

/-- Whether inserting `created` after `committed` trips the unique
constraint on `inventory_tx.request_id` (`src/app/models.py`): some
non-NULL key appears twice overall, either against a previously
committed row or within the new batch itself.  This is the condition
under which the `db.flush()` in `create_txs` raises `IntegrityError`. -/
def insertViolatesUnique (committed created : List InventoryTx) : Bool :=
  !(decide (usedKeys committed ++ usedKeys created).Nodup)

/-- Per-batch delta of the ON_HAND bucket (`delta_on_hand` in
`create_txs`, `src/app/stock.py`). -/
def deltaOnHand (resolved : List (TxType × Bucket × Int)) : Int :=
  ((resolved.filter (fun r => r.2.1 == Bucket.ON_HAND)).map (fun r => r.2.2)).sum

/-- Per-batch delta of the RESERVED bucket (`delta_reserved` in
`create_txs`, `src/app/stock.py`). -/
def deltaReserved (resolved : List (TxType × Bucket × Int)) : Int :=
  ((resolved.filter (fun r => r.2.1 == Bucket.RESERVED)).map (fun r => r.2.2)).sum

/-- Embedding of `create_txs` (`src/app/stock.py`): validate invariants
on the net post-batch projection and persist the batch atomically.

Sequential semantics notes:
* the conditional `UPDATE stock_heads ... WHERE version = expected`
  always matches here, because no concurrent writer can interleave
  between the read of `expected_version` and the update inside a single
  sequential call; the race-lost `CONFLICT` branch is therefore
  unreachable in this embedding (the missing-row `CONFLICT` is not);
* the SAVEPOINT (`db.begin_nested()`) means an `IntegrityError` on the
  duplicate-key flush discards the staged version bump and row inserts,
  so the error branches carry no successor state. -/
def create_txs (s : ProductState) (tx_inputs : List TxCreate) :
    Except AppError (List InventoryTx × StockLevel × ProductState) :=
  if s.active = false then
    .error { code := "PRODUCT_INACTIVE", status_code := 400 }
  else
    match s.head with
    | none => .error { code := "CONFLICT", status_code := 409 }
    | some expected_version =>
      let resolved := tx_inputs.map resolve_tx
      let current := calc_stock s.entries
      let new_on_hand := current.on_hand + deltaOnHand resolved
      let new_reserved := current.reserved + deltaReserved resolved
      let new_available := new_on_hand - new_reserved
      if new_on_hand < 0 then
        .error { code := "INSUFFICIENT_ON_HAND", status_code := 409 }
      else if new_reserved < 0 then
        .error { code := "INSUFFICIENT_RESERVED", status_code := 409 }
      else if new_available < 0 then
        .error { code := "INSUFFICIENT_AVAILABLE", status_code := 409 }
      else
        let created := tx_inputs.map mkEntry
        if insertViolatesUnique s.entries created then
          .error { code := "DUPLICATE_REQUEST_ID", status_code := 409 }
        else
          .ok (created,
               { on_hand := new_on_hand, reserved := new_reserved,
                 available := new_available },
               { active := s.active,
                 head := some (expected_version + 1),
                 entries := s.entries ++ created })

/-- Committed state after a commit attempt on validated intents: the
successor state on success, the unchanged state on any error (the
failed SQL transaction is rolled back). -/
def applyBatch (s : ProductState) (txs : List TxCreate) : ProductState :=
  match create_txs s txs with
  | .ok out => out.2.2
  | .error _ => s

/-- Pydantic validation of a whole batch, first failure wins
(FastAPI validates the request body before the handler runs,
`src/app/routers/transactions.py`). -/
def validateBatch : List RawTx → Except AppError (List TxCreate)
  | [] => .ok []
  | r :: rs =>
    match TxCreate.validate r with
    | .error e => .error e
    | .ok t =>
      match validateBatch rs with
      | .error e => .error e
      | .ok ts => .ok (t :: ts)

/-- The full commit path for raw client input: request-body validation
(pydantic, surfaced as `VALIDATION_ERROR` by `src/app/main.py`)
followed by `create_txs`.  Single submissions are the one-element list
through this same path (`src/app/routers/transactions.py`). -/
def commitBatch (s : ProductState) (rtxs : List RawTx) :
    Except AppError (List InventoryTx × StockLevel × ProductState) :=
  match validateBatch rtxs with
  | .error e => .error e
  | .ok txs => create_txs s txs

/-- Committed state after a raw commit attempt (unchanged on error). -/
def applyBatchRaw (s : ProductState) (rtxs : List RawTx) : ProductState :=
  match commitBatch s rtxs with
  | .ok out => out.2.2
  | .error _ => s

/-- State of a freshly created product: `active` defaults to true
(`Item.active` in `src/app/models.py`), no ledger rows, and a
`stock_heads` row at version 0.

Modelled from the spec: the `StockHead` ORM class itself is absent from
`src/app/models.py` (only its callers and tests are present), so its
version default follows the spec ("Created alongside each Product ...,
initialized to version 0"), corroborated in src by the backfill insert
`SELECT id, 0, updated_at` in `src/app/main.py` and by
`test_version_starts_at_zero` in
`src/tests/test_stock_heads_optimistic_lock.py`. -/
def initState : ProductState :=
  { active := true, head := some 0, entries := [] }

/-- Committed states reachable for one product: the freshly created
state, successful commits (`create_txs`), and soft-deletion
(`delete_item` in `src/app/routers/items.py` sets `active = False` and
touches neither the ledger nor the stock head). -/
inductive Reachable : ProductState → Prop where
  | init : Reachable initState
  | commit {s : ProductState} {txs : List TxCreate}
      {out : List InventoryTx × StockLevel × ProductState}
      (h : Reachable s) (hc : create_txs s txs = .ok out) :
      Reachable out.2.2
  | deactivate {s : ProductState} (h : Reachable s) :
      Reachable { s with active := false }

/-! Query/aggregation layer (`src/app/stock.py`, lines 203-455). -/

/-- Product master-data fields consumed by the query layer
(`Item` in `src/app/models.py`; `unit`, `spec`, `unit_weight` and the
timestamps are pass-through output fields with no role in any claim and
are omitted). -/
structure Item where
  code : String
  name : String
  unit_price : Int
  reorder_point : Int := 0
  active : Bool := true
deriving DecidableEq, Repr

/-- One row of the per-item breakdown query: the product columns joined
(outer join, `coalesce` to 0) with the per-item aggregates of
`_stock_breakdown_subquery` (`src/app/stock.py`). -/
structure StockRow where
  code : String
  name : String
  unit_price : Int
  reorder_point : Int
  on_hand : Int
  reserved_total : Int
  reserved_pending_return : Int
  reserved_pending_order : Int
deriving DecidableEq, Repr

/-- Sum of `qty_delta` over rows of one bucket carrying one specific
`reason` (the reason-filtered `CASE WHEN` sub-sums of
`_stock_breakdown_subquery` in `src/app/stock.py`). -/
def reasonBucketSum (entries : List InventoryTx) (b : Bucket) (reason : String) : Int :=
  ((entries.filter
      (fun e => e.bucket == b && e.reason == some reason)).map
    (fun e => e.qty_delta)).sum

/-- The breakdown row produced for one item by
`_stock_breakdown_subquery` outer-joined to `items`
(`src/app/stock.py`): an item with no ledger rows gets all-zero
aggregates via `coalesce`, which the empty sums reproduce. -/
def stockRowOf (it : Item) (entries : List InventoryTx) : StockRow :=
  { code := it.code,
    name := it.name,
    unit_price := it.unit_price,
    reorder_point := it.reorder_point,
    on_hand := sumBucket entries Bucket.ON_HAND,
    reserved_total := sumBucket entries Bucket.RESERVED,
    reserved_pending_return := reasonBucketSum entries Bucket.RESERVED "RETURN_PENDING",
    reserved_pending_order := reasonBucketSum entries Bucket.RESERVED "ORDER_PENDING_SHIPMENT" }

/-- Output shape of `_row_to_stock_item` without detail fields
(`src/app/stock.py`). -/
structure StockItem where
  code : String
  name : String
  on_hand : Int
  reserved_total : Int
  reserved_pending_return : Int
  reserved_pending_order : Int
  available : Int
  reorder_point : Int
  needs_reorder : Bool
deriving DecidableEq, Repr

/-- Embedding of `_row_to_stock_item` (`src/app/stock.py`):
`available = on_hand - reserved_total`,
`needs_reorder = available <= reorder_point`. -/
def _row_to_stock_item (r : StockRow) : StockItem :=
  let oh := r.on_hand
  let rt := r.reserved_total
  let avail := oh - rt
  { code := r.code,
    name := r.name,
    on_hand := oh,
    reserved_total := rt,
    reserved_pending_return := r.reserved_pending_return,
    reserved_pending_order := r.reserved_pending_order,
    available := avail,
    reorder_point := r.reorder_point,
    needs_reorder := decide (avail ≤ r.reorder_point) }

/-- The `others` accumulator dict of `query_stock_top`
(`src/app/stock.py`, lines 297-309). -/
structure OthersTotal where
  on_hand : Int
  reserved_total : Int
  reserved_pending_return : Int
  reserved_pending_order : Int
  available : Int
deriving DecidableEq, Repr

/-- Decidable model of ascending SQL text collation on the `code`
column, used as the `Item.code` tie-break of `order_by`. -/
def lexLeChars : List Char → List Char → Bool
  | [], _ => true
  | _ :: _, [] => false
  | a :: as, b :: bs => if a = b then lexLeChars as bs else decide (a < b)

/-- The `ORDER BY on_hand DESC, code` ordering of `query_stock_top`
(`src/app/stock.py`, line 293). -/
def topOrder (a b : StockRow) : Prop :=
  b.on_hand < a.on_hand ∨ (a.on_hand = b.on_hand ∧ lexLeChars a.code.data b.code.data = true)

instance : DecidableRel topOrder := fun a b => by
  unfold topOrder; infer_instance

/-- The `others` aggregation loop over the rows past `limit`
(`src/app/stock.py`, lines 302-309). -/
def othersTotalOf (rows : List StockRow) : OthersTotal :=
  { on_hand := (rows.map (fun r => r.on_hand)).sum,
    reserved_total := (rows.map (fun r => r.reserved_total)).sum,
    reserved_pending_return := (rows.map (fun r => r.reserved_pending_return)).sum,
    reserved_pending_order := (rows.map (fun r => r.reserved_pending_order)).sum,
    available := (rows.map (fun r => r.on_hand - r.reserved_total)).sum }

/-- Embedding of `query_stock_top` (`src/app/stock.py`, lines 264-311):
per-item breakdown rows of the (optionally active-filtered) items,
ordered by `on_hand DESC, code`, split into the first `limit` items and
an aggregate over the remainder.  The source function takes no metric
argument and ranks by quantity only. -/
def query_stock_top (db : List (Item × List InventoryTx)) (limit : Nat)
    (include_inactive : Bool) : List StockItem × OthersTotal :=
  let rows := (db.filter (fun p => include_inactive || p.1.active)).map
    (fun p => stockRowOf p.1 p.2)
  let sorted := List.insertionSort topOrder rows
  ((sorted.take limit).map _row_to_stock_item, othersTotalOf (sorted.drop limit))

/-- Separator characters of the category-splitting regex
`[\s　]+` (`_SPLIT_RE` in `src/app/stock.py`): the ASCII whitespace
class plus the full-width (ideographic) space U+3000.  Rarer Unicode
space characters that Python's `\s` also matches are outside the
alphabet any claim exercises. -/
def isSepChar (c : Char) : Bool :=
  c = ' ' || c = '\t' || c = '\n' || c = '\r' || c = '\x0b' || c = '\x0c' || c = '　'

/-- Embedding of `_extract_category` (`src/app/stock.py`):
`_SPLIT_RE.split(name, maxsplit=1)[0]` is the longest prefix of
non-separator characters, and the `token or name` fallback returns the
whole name when that prefix is empty. -/
def _extract_category (name : String) : String :=
  let token := name.data.takeWhile (fun c => !isSepChar c)
  if token.isEmpty then name else String.mk token

/-- The per-row metric of `query_stock_by_category`
(`src/app/stock.py`, lines 432-439): `value`, `qty`, `available`, with
`reserved` as the final `else` branch. -/
def categoryMetricValue (metric : String) (r : StockRow) : Int :=
  if metric = "value" then r.on_hand * r.unit_price
  else if metric = "qty" then r.on_hand
  else if metric = "available" then r.on_hand - r.reserved_total
  else r.reserved_total

/-- Accumulate one value into the category map
(`cat_map[cat] = cat_map.get(cat, 0) + val` on a Python dict, whose
insertion order an association list preserves). -/
def addToCat : List (String × Int) → String → Int → List (String × Int)
  | [], k, v => [(k, v)]
  | (k', v') :: rest, k, v =>
    if k' = k then (k', v' + v) :: rest else (k', v') :: addToCat rest k v

/-- The descending stable sort of `sorted(cat_map.items(), key=value,
reverse=True)`: ties keep insertion order. -/
def catOrder (a b : String × Int) : Prop := b.2 ≤ a.2

instance : DecidableRel catOrder := fun a b => by
  unfold catOrder; infer_instance

/-- The active-only breakdown rows queried by `query_stock_by_category`
(`src/app/stock.py`, lines 414-424). -/
def categoryRows (db : List (Item × List InventoryTx)) : List StockRow :=
  (db.filter (fun p => p.1.active)).map (fun p => stockRowOf p.1 p.2)

/-- The `cat_map` grouping loop of `query_stock_by_category`
(`src/app/stock.py`, lines 427-440), in dict insertion order. -/
def categoryTotals (db : List (Item × List InventoryTx)) (metric : String) :
    List (String × Int) :=
  (categoryRows db).foldl
    (fun m r => addToCat m (_extract_category r.name) (categoryMetricValue metric r)) []

/-- The `sorted_cats` list of `query_stock_by_category`
(`src/app/stock.py`, line 443): category totals sorted descending by
metric value, ties in insertion order (Python's stable sort). -/
def sortedCats (db : List (Item × List InventoryTx)) (metric : String) :
    List (String × Int) :=
  List.insertionSort catOrder (categoryTotals db metric)

/-- Embedding of `query_stock_by_category` (`src/app/stock.py`, lines
399-455): group the active items' metric values by the category derived
from the product name, sort descending, return the grand total and the
top `limit` categories as `(key, label, metric_value)` triples, with an
`OTHER` bucket (label `その他`) summing the remainder when more
categories than `limit` exist. -/
def query_stock_by_category (db : List (Item × List InventoryTx))
    (metric : String) (limit : Nat) : Int × List (String × String × Int) :=
  let sorted_cats := sortedCats db metric
  let total := (sorted_cats.map (fun p => p.2)).sum
  let breakdown := (sorted_cats.take limit).map (fun p => (p.1, p.1, p.2))
  if limit < sorted_cats.length then
    (total, breakdown ++ [("OTHER", "その他", ((sorted_cats.drop limit).map (fun p => p.2)).sum)])
  else
    (total, breakdown)

/-- Modelled from the spec for comparison with `_extract_category`
(this is the spec's phrase, not source code): the first
whitespace-delimited token of a product name, that is the first maximal
run of non-separator characters. -/
def firstTokenSpec (name : String) : String :=
  String.mk ((name.data.dropWhile (fun c => isSepChar c)).takeWhile (fun c => !isSepChar c))

/-! Helper lemmas about the commit engine. -/

theorem sumBucket_append (l₁ l₂ : List InventoryTx) (b : Bucket) :
    sumBucket (l₁ ++ l₂) b = sumBucket l₁ b + sumBucket l₂ b := by
  simp [sumBucket, List.filter_append]

theorem sumBucket_nil (b : Bucket) : sumBucket [] b = 0 := rfl

/-- The rows staged for a batch contribute to a bucket exactly the
filtered sum of the resolved deltas. -/
theorem sumBucket_map_mkEntry (txs : List TxCreate) (b : Bucket) :
    sumBucket (txs.map mkEntry) b
      = (((txs.map resolve_tx).filter (fun r => r.2.1 == b)).map (fun r => r.2.2)).sum := by
  induction txs with
  | nil => rfl
  | cons t ts ih =>
    simp only [List.map_cons, sumBucket, List.filter_cons] at *
    by_cases hb : (resolve_tx t).2.1 = b
    · simp [mkEntry, hb, ih, sumBucket]
    · simp [mkEntry, hb, ih, sumBucket]

theorem sumBucket_map_mkEntry_on_hand (txs : List TxCreate) :
    sumBucket (txs.map mkEntry) Bucket.ON_HAND = deltaOnHand (txs.map resolve_tx) := by
  simpa [deltaOnHand] using sumBucket_map_mkEntry txs Bucket.ON_HAND

theorem sumBucket_map_mkEntry_reserved (txs : List TxCreate) :
    sumBucket (txs.map mkEntry) Bucket.RESERVED = deltaReserved (txs.map resolve_tx) := by
  simpa [deltaReserved] using sumBucket_map_mkEntry txs Bucket.RESERVED

/-- Everything a successful `create_txs` call guarantees: the guards
passed, the created rows are the resolved batch in submission order,
the successor state appends them and bumps the version by one, no
idempotency key is duplicated, and the returned level is the net
post-batch projection, which is non-negative in all three components. -/
theorem create_txs_ok_spec {s : ProductState} {txs : List TxCreate}
    {c : List InventoryTx} {lvl : StockLevel} {s' : ProductState}
    (hc : create_txs s txs = .ok (c, lvl, s')) :
    s.active = true ∧
    (∃ v, s.head = some v ∧ s'.head = some (v + 1)) ∧
    c = txs.map mkEntry ∧
    s'.active = s.active ∧
    s'.entries = s.entries ++ c ∧
    (usedKeys s.entries ++ usedKeys c).Nodup ∧
    lvl.on_hand = (calc_stock s.entries).on_hand + deltaOnHand (txs.map resolve_tx) ∧
    lvl.reserved = (calc_stock s.entries).reserved + deltaReserved (txs.map resolve_tx) ∧
    lvl.available = lvl.on_hand - lvl.reserved ∧
    0 ≤ lvl.on_hand ∧ 0 ≤ lvl.reserved ∧ 0 ≤ lvl.available := by
  simp only [create_txs] at hc
  split at hc
  · cases hc
  next hactive =>
    split at hc
    · cases hc
    next v hv =>
      split at hc
      · cases hc
      next hoh =>
        split at hc
        · cases hc
        next hres =>
          split at hc
          · cases hc
          next hav =>
            split at hc
            · cases hc
            next hdup =>
              rcases hc with ⟨⟩
              refine ⟨by simpa using hactive, ⟨v, hv, rfl⟩, rfl, rfl, rfl, ?_, rfl, rfl, rfl,
                le_of_not_lt hoh, le_of_not_lt hres, le_of_not_lt hav⟩
              simpa [insertViolatesUnique] using hdup

/-- The stock level returned by a successful commit equals the fold of
the successor state's ledger. -/
theorem create_txs_ok_level {s : ProductState} {txs : List TxCreate}
    {c : List InventoryTx} {lvl : StockLevel} {s' : ProductState}
    (hc : create_txs s txs = .ok (c, lvl, s')) :
    lvl = calc_stock s'.entries := by
  obtain ⟨-, -, hcreated, -, hentries, -, hoh, hres, hav, -⟩ := create_txs_ok_spec hc
  subst hcreated
  have h1 : (calc_stock s'.entries).on_hand = lvl.on_hand := by
    rw [hentries, hoh]
    simp [calc_stock, sumBucket_append, sumBucket_map_mkEntry_on_hand]
  have h2 : (calc_stock s'.entries).reserved = lvl.reserved := by
    rw [hentries, hres]
    simp [calc_stock, sumBucket_append, sumBucket_map_mkEntry_reserved]
  have h3 : (calc_stock s'.entries).available = lvl.available := by
    show (calc_stock s'.entries).on_hand - (calc_stock s'.entries).reserved = _
    rw [h1, h2, hav]
  have heta : calc_stock s'.entries
      = ⟨(calc_stock s'.entries).on_hand, (calc_stock s'.entries).reserved,
         (calc_stock s'.entries).available⟩ := rfl
  rw [heta, h1, h2, h3]

/-! Claim theorems. -/

/-- C1: for every sequence of successfully committed batches on a
product, the committed stock state after each commit satisfies
`on_hand ≥ 0`, `reserved ≥ 0` and `on_hand - reserved ≥ 0`; no
reachable committed state is negative in either bucket or in
availability. -/
theorem C1_committed_state_invariant (s : ProductState) (h : Reachable s) :
    0 ≤ (calc_stock s.entries).on_hand ∧
    0 ≤ (calc_stock s.entries).reserved ∧
    0 ≤ (calc_stock s.entries).on_hand - (calc_stock s.entries).reserved := by
  induction h with
  | init => exact ⟨le_refl 0, le_refl 0, le_refl 0⟩
  | commit h hc ih =>
    have hlvl := create_txs_ok_level hc
    obtain ⟨-, -, -, -, -, -, -, -, hav, hoh0, hres0, hav0⟩ := create_txs_ok_spec hc
    rw [← hlvl]
    exact ⟨hoh0, hres0, by omega⟩
  | deactivate h ih => simpa using ih

/-- Witness for C1 at the freshly created product state. -/
theorem C1_committed_state_invariant_witness :
    0 ≤ (calc_stock initState.entries).on_hand ∧
    0 ≤ (calc_stock initState.entries).reserved ∧
    0 ≤ (calc_stock initState.entries).on_hand - (calc_stock initState.entries).reserved :=
  C1_committed_state_invariant initState Reachable.init

/-- C3: every commit attempt that fails with any error persists no
partial transition: the committed state after the attempt equals the
state before it, with the ledger entries and the stock-head version
unchanged. -/
theorem C3_failed_commit_unchanged (s : ProductState) (rtxs : List RawTx)
    (e : AppError) (hfail : commitBatch s rtxs = .error e) :
    applyBatchRaw s rtxs = s ∧
    (applyBatchRaw s rtxs).entries = s.entries ∧
    (applyBatchRaw s rtxs).head = s.head := by
  have h : applyBatchRaw s rtxs = s := by simp [applyBatchRaw, hfail]
  exact ⟨h, by rw [h], by rw [h]⟩

/-- Witness for C3: a commit against an inactive product fails with
`PRODUCT_INACTIVE` and changes nothing. -/
theorem C3_failed_commit_unchanged_witness :
    applyBatchRaw ⟨false, some 0, []⟩ [⟨"IN", 1, none, none, none⟩] = ⟨false, some 0, []⟩ ∧
    (applyBatchRaw ⟨false, some 0, []⟩ [⟨"IN", 1, none, none, none⟩]).entries = [] ∧
    (applyBatchRaw ⟨false, some 0, []⟩ [⟨"IN", 1, none, none, none⟩]).head = some 0 :=
  C3_failed_commit_unchanged ⟨false, some 0, []⟩ [⟨"IN", 1, none, none, none⟩]
    ⟨"PRODUCT_INACTIVE", 400⟩ rfl

/-- C5: every successful commit call bumps the stock-head version by
exactly 1 regardless of the batch size; the stock head starts at
version 0 when the product is created, and the only other reachable
transition (soft-deletion) leaves both the version and the ledger
untouched. -/
theorem C5_version_monotonicity :
    (∀ (s : ProductState) (txs : List TxCreate)
        (out : List InventoryTx × StockLevel × ProductState),
        create_txs s txs = .ok out →
        ∃ v, s.head = some v ∧ out.2.2.head = some (v + 1)) ∧
    initState.head = some 0 ∧
    (∀ s : ProductState, ({ s with active := false } : ProductState).head = s.head ∧
        ({ s with active := false } : ProductState).entries = s.entries) := by
  refine ⟨?_, rfl, fun s => ⟨rfl, rfl⟩⟩
  intro s txs out hc
  obtain ⟨-, hv, -⟩ := create_txs_ok_spec hc
  exact hv

/-- Witness for C5: committing a two-intent batch on a fresh product
bumps the version from 0 to 1 (not 2). -/
theorem C5_version_monotonicity_witness :
    ∃ v, initState.head = some v ∧
      (⟨true, some 1,
        [⟨TxType.IN, Bucket.ON_HAND, 5, none, none⟩,
         ⟨TxType.IN, Bucket.ON_HAND, 7, none, none⟩]⟩ : ProductState).head = some (v + 1) :=
  C5_version_monotonicity.1 initState
    [⟨TxType.IN, 5, none, none, none⟩, ⟨TxType.IN, 7, none, none, none⟩]
    ([⟨TxType.IN, Bucket.ON_HAND, 5, none, none⟩,
      ⟨TxType.IN, Bucket.ON_HAND, 7, none, none⟩],
     ⟨12, 0, 12⟩,
     ⟨true, some 1,
      [⟨TxType.IN, Bucket.ON_HAND, 5, none, none⟩,
       ⟨TxType.IN, Bucket.ON_HAND, 7, none, none⟩]⟩)
    rfl

/-- C10: when no stock-head row exists for the product, every commit
attempt — even with valid intents on an active product — fails with the
`CONFLICT` error (HTTP 409) and writes nothing, independently of the
submitted intents and of the ledger contents. -/
theorem C10_missing_stock_head_conflict (s : ProductState) (txs : List TxCreate)
    (hactive : s.active = true) (hhead : s.head = none) :
    create_txs s txs = .error ⟨"CONFLICT", 409⟩ ∧ applyBatch s txs = s := by
  have h : create_txs s txs = .error ⟨"CONFLICT", 409⟩ := by
    simp [create_txs, hactive, hhead]
  exact ⟨h, by simp [applyBatch, h]⟩

/-- The net post-batch ON_HAND projection `new_on_hand` computed by
`create_txs` (`src/app/stock.py`, line 122): current projected stock
plus the per-bucket sum of all resolved deltas in the batch. -/
def new_on_hand (s : ProductState) (txs : List TxCreate) : Int :=
  (calc_stock s.entries).on_hand + deltaOnHand (txs.map resolve_tx)

/-- The net post-batch RESERVED projection `new_reserved`
(`src/app/stock.py`, line 123). -/
def new_reserved (s : ProductState) (txs : List TxCreate) : Int :=
  (calc_stock s.entries).reserved + deltaReserved (txs.map resolve_tx)

/-- Run of `create_txs` once the active and stock-head guards pass:
the fixed chain of net-state checks, then the duplicate-key constraint,
then the successful append-and-bump. -/
theorem create_txs_run (s : ProductState) (txs : List TxCreate) (v : Nat)
    (hactive : s.active = true) (hhead : s.head = some v) :
    create_txs s txs =
      (if new_on_hand s txs < 0 then
        .error ⟨"INSUFFICIENT_ON_HAND", 409⟩
      else if new_reserved s txs < 0 then
        .error ⟨"INSUFFICIENT_RESERVED", 409⟩
      else if new_on_hand s txs - new_reserved s txs < 0 then
        .error ⟨"INSUFFICIENT_AVAILABLE", 409⟩
      else if insertViolatesUnique s.entries (txs.map mkEntry) then
        .error ⟨"DUPLICATE_REQUEST_ID", 409⟩
      else
        .ok (txs.map mkEntry,
             ⟨new_on_hand s txs, new_reserved s txs,
              new_on_hand s txs - new_reserved s txs⟩,
             ⟨s.active, some (v + 1), s.entries ++ txs.map mkEntry⟩)) := by
  simp [create_txs, hactive, hhead, new_on_hand, new_reserved]

/-- C2: invariant validation happens only on the net post-batch state.
The three checks run in the fixed order on-hand, reserved, available
and return the first violation, as witnessed by the exact
characterization of each error against the net projections; and a
batch whose per-entry prefix would dip negative but whose net result is
non-negative commits successfully. -/
theorem C2_net_postbatch_validation (s : ProductState) (txs : List TxCreate)
    (v : Nat) (hactive : s.active = true) (hhead : s.head = some v) :
    ((create_txs s txs = .error ⟨"INSUFFICIENT_ON_HAND", 409⟩ ↔
        new_on_hand s txs < 0) ∧
     (create_txs s txs = .error ⟨"INSUFFICIENT_RESERVED", 409⟩ ↔
        0 ≤ new_on_hand s txs ∧ new_reserved s txs < 0) ∧
     (create_txs s txs = .error ⟨"INSUFFICIENT_AVAILABLE", 409⟩ ↔
        0 ≤ new_on_hand s txs ∧ 0 ≤ new_reserved s txs ∧
        new_on_hand s txs - new_reserved s txs < 0)) ∧
    (∃ out, create_txs initState
        [⟨TxType.OUT, 5, none, none, none⟩, ⟨TxType.IN, 5, none, none, none⟩] = .ok out) ∧
    (calc_stock (initState.entries ++ [mkEntry ⟨TxType.OUT, 5, none, none, none⟩])).on_hand < 0 := by
  have hrun := create_txs_run s txs v hactive hhead
  refine ⟨⟨?_, ?_, ?_⟩, ?_, by decide⟩
  · rw [hrun]; split_ifs <;> simp_all
  · rw [hrun]; split_ifs <;> simp_all
  · rw [hrun]; split_ifs <;> simp_all
  · exact ⟨([⟨TxType.OUT, Bucket.ON_HAND, -5, none, none⟩,
             ⟨TxType.IN, Bucket.ON_HAND, 5, none, none⟩],
            ⟨0, 0, 0⟩,
            ⟨true, some 1,
             [⟨TxType.OUT, Bucket.ON_HAND, -5, none, none⟩,
              ⟨TxType.IN, Bucket.ON_HAND, 5, none, none⟩]⟩), rfl⟩

/-- Witness for C2: on a product with on-hand 3, an OUT of 5 nets to
-2 and is rejected as `INSUFFICIENT_ON_HAND`. -/
theorem C2_net_postbatch_validation_witness :
    ((create_txs ⟨true, some 0, [⟨TxType.IN, Bucket.ON_HAND, 3, none, none⟩]⟩
        [⟨TxType.OUT, 5, none, none, none⟩] = .error ⟨"INSUFFICIENT_ON_HAND", 409⟩ ↔
        new_on_hand ⟨true, some 0, [⟨TxType.IN, Bucket.ON_HAND, 3, none, none⟩]⟩
          [⟨TxType.OUT, 5, none, none, none⟩] < 0) ∧
     (create_txs ⟨true, some 0, [⟨TxType.IN, Bucket.ON_HAND, 3, none, none⟩]⟩
        [⟨TxType.OUT, 5, none, none, none⟩] = .error ⟨"INSUFFICIENT_RESERVED", 409⟩ ↔
        0 ≤ new_on_hand ⟨true, some 0, [⟨TxType.IN, Bucket.ON_HAND, 3, none, none⟩]⟩
          [⟨TxType.OUT, 5, none, none, none⟩] ∧
        new_reserved ⟨true, some 0, [⟨TxType.IN, Bucket.ON_HAND, 3, none, none⟩]⟩
          [⟨TxType.OUT, 5, none, none, none⟩] < 0) ∧
     (create_txs ⟨true, some 0, [⟨TxType.IN, Bucket.ON_HAND, 3, none, none⟩]⟩
        [⟨TxType.OUT, 5, none, none, none⟩] = .error ⟨"INSUFFICIENT_AVAILABLE", 409⟩ ↔
        0 ≤ new_on_hand ⟨true, some 0, [⟨TxType.IN, Bucket.ON_HAND, 3, none, none⟩]⟩
          [⟨TxType.OUT, 5, none, none, none⟩] ∧
        0 ≤ new_reserved ⟨true, some 0, [⟨TxType.IN, Bucket.ON_HAND, 3, none, none⟩]⟩
          [⟨TxType.OUT, 5, none, none, none⟩] ∧
        new_on_hand ⟨true, some 0, [⟨TxType.IN, Bucket.ON_HAND, 3, none, none⟩]⟩
          [⟨TxType.OUT, 5, none, none, none⟩] -
        new_reserved ⟨true, some 0, [⟨TxType.IN, Bucket.ON_HAND, 3, none, none⟩]⟩
          [⟨TxType.OUT, 5, none, none, none⟩] < 0)) ∧
    (∃ out, create_txs initState
        [⟨TxType.OUT, 5, none, none, none⟩, ⟨TxType.IN, 5, none, none, none⟩] = .ok out) ∧
    (calc_stock (initState.entries ++ [mkEntry ⟨TxType.OUT, 5, none, none, none⟩])).on_hand < 0 :=
  C2_net_postbatch_validation ⟨true, some 0, [⟨TxType.IN, Bucket.ON_HAND, 3, none, none⟩]⟩
    [⟨TxType.OUT, 5, none, none, none⟩] 0 rfl rfl

/-- A malformed raw intent: unknown type literal, non-positive
quantity, unknown direction literal, direction absent for ADJUST, or
direction present for a non-ADJUST type (the rejection conditions of
`TxCreate` in `src/app/schemas.py`). -/
def badRawTx (r : RawTx) : Prop :=
  parseTxType r.type = none ∨
  r.qty < 1 ∨
  (∃ d, r.direction = some d ∧ parseDirection d = none) ∨
  (parseTxType r.type = some TxType.ADJUST ∧ r.direction = none) ∨
  (∃ ty, parseTxType r.type = some ty ∧ ty ≠ TxType.ADJUST ∧ r.direction ≠ none)

theorem validate_bad (r : RawTx) (hbad : badRawTx r) :
    TxCreate.validate r = .error ⟨"VALIDATION_ERROR", 400⟩ := by
  cases hty : parseTxType r.type with
  | none => simp [TxCreate.validate, hty]
  | some ty =>
    by_cases hq : r.qty < 1
    · simp [TxCreate.validate, hty, hq]
    · cases hdir : r.direction with
      | none =>
        have hadj : ty = TxType.ADJUST := by
          rcases hbad with h | h | ⟨d, hd, -⟩ | ⟨hadj, -⟩ | ⟨ty', -, -, hdir'⟩
          · rw [hty] at h; cases h
          · exact absurd h hq
          · rw [hdir] at hd; cases hd
          · rw [hty] at hadj; exact Option.some.inj hadj
          · rw [hdir] at hdir'; exact absurd rfl hdir'
        simp [TxCreate.validate, hty, hq, hdir, hadj]
      | some d =>
        cases hpd : parseDirection d with
        | none => simp [TxCreate.validate, hty, hq, hdir, hpd]
        | some dir =>
          have hne : ty ≠ TxType.ADJUST := by
            rcases hbad with h | h | ⟨d', hd', hpd'⟩ | ⟨-, hdirn⟩ | ⟨ty', hty', hne', -⟩
            · rw [hty] at h; cases h
            · exact absurd h hq
            · rw [hdir] at hd'
              rw [← Option.some.inj hd'] at hpd'
              rw [hpd] at hpd'
              cases hpd'
            · rw [hdir] at hdirn; cases hdirn
            · rw [hty] at hty'
              exact fun hEq => hne' ((Option.some.inj hty').symm.trans hEq)
          simp [TxCreate.validate, hty, hq, hdir, hpd, hne]

theorem validate_error_code (r : RawTx) (e : AppError)
    (h : TxCreate.validate r = .error e) : e = ⟨"VALIDATION_ERROR", 400⟩ := by
  cases hty : parseTxType r.type with
  | none => simp [TxCreate.validate, hty] at h; exact h.symm
  | some ty =>
    by_cases hq : r.qty < 1
    · simp [TxCreate.validate, hty, hq] at h; exact h.symm
    · cases hdir : r.direction with
      | none =>
        by_cases hadj : ty = TxType.ADJUST
        · simp [TxCreate.validate, hty, hq, hdir, hadj] at h; exact h.symm
        · simp [TxCreate.validate, hty, hq, hdir, hadj] at h
      | some d =>
        cases hpd : parseDirection d with
        | none => simp [TxCreate.validate, hty, hq, hdir, hpd] at h; exact h.symm
        | some dir =>
          by_cases hadj : ty = TxType.ADJUST
          · simp [TxCreate.validate, hty, hq, hdir, hpd, hadj] at h
          · simp [TxCreate.validate, hty, hq, hdir, hpd, hadj] at h; exact h.symm

theorem validateBatch_error_code {rs : List RawTx} {e : AppError}
    (h : validateBatch rs = .error e) : e = ⟨"VALIDATION_ERROR", 400⟩ := by
  induction rs with
  | nil => cases h
  | cons a as ih =>
    unfold validateBatch at h
    cases hv : TxCreate.validate a <;> rw [hv] at h
    · exact (Except.error.inj h) ▸ validate_error_code a _ hv
    · cases hb : validateBatch as <;> rw [hb] at h
      · exact ih (Except.error.inj h ▸ hb)
      · cases h

theorem validateBatch_bad_mem {rs : List RawTx} {r : RawTx}
    (hmem : r ∈ rs) (hbad : badRawTx r) :
    validateBatch rs = .error ⟨"VALIDATION_ERROR", 400⟩ := by
  induction rs with
  | nil => cases hmem
  | cons a as ih =>
    cases hmem with
    | head => simp [validateBatch, validate_bad r hbad]
    | tail b hmem' =>
      unfold validateBatch
      cases hv : TxCreate.validate a
      · simp [validate_error_code a _ hv]
      · simp [ih hmem']

/-- C4: intent resolution follows the fixed mapping — IN adds and OUT
subtracts on ON_HAND, RESERVE adds and UNRESERVE subtracts on RESERVED,
ADJUST signs its quantity by the direction on ON_HAND — and every
malformed raw intent (unknown type, direction present for a non-ADJUST
type, direction absent for ADJUST, quantity below 1) makes the whole
commit fail with `VALIDATION_ERROR` (HTTP 400) before any stock
projection or write, leaving any state unchanged. -/
theorem C4_intent_resolution :
    (∀ tx : TxCreate,
      (tx.type = TxType.IN → resolve_tx tx = (TxType.IN, Bucket.ON_HAND, tx.qty)) ∧
      (tx.type = TxType.OUT → resolve_tx tx = (TxType.OUT, Bucket.ON_HAND, -tx.qty)) ∧
      (tx.type = TxType.RESERVE → resolve_tx tx = (TxType.RESERVE, Bucket.RESERVED, tx.qty)) ∧
      (tx.type = TxType.UNRESERVE →
        resolve_tx tx = (TxType.UNRESERVE, Bucket.RESERVED, -tx.qty)) ∧
      (tx.type = TxType.ADJUST → tx.direction = some Direction.INCREASE →
        resolve_tx tx = (TxType.ADJUST, Bucket.ON_HAND, tx.qty)) ∧
      (tx.type = TxType.ADJUST → tx.direction = some Direction.DECREASE →
        resolve_tx tx = (TxType.ADJUST, Bucket.ON_HAND, -tx.qty))) ∧
    (∀ (r : RawTx) (rtxs : List RawTx) (s : ProductState),
      r ∈ rtxs → badRawTx r →
      commitBatch s rtxs = .error ⟨"VALIDATION_ERROR", 400⟩ ∧ applyBatchRaw s rtxs = s) := by
  constructor
  · intro tx
    refine ⟨fun h => ?_, fun h => ?_, fun h => ?_, fun h => ?_,
      fun h hd => ?_, fun h hd => ?_⟩ <;>
      simp [resolve_tx, h]
    · simp [hd]
    · simp [hd]
  · intro r rtxs s hmem hbad
    have h : commitBatch s rtxs = .error ⟨"VALIDATION_ERROR", 400⟩ := by
      simp [commitBatch, validateBatch_bad_mem hmem hbad]
    exact ⟨h, by simp [applyBatchRaw, h]⟩

/-- Witness for C4: OUT resolves to a negative ON_HAND delta, and an
ADJUST without direction fails validation with `VALIDATION_ERROR`,
leaving the state unchanged. -/
theorem C4_intent_resolution_witness :
    resolve_tx ⟨TxType.OUT, 4, none, none, none⟩ = (TxType.OUT, Bucket.ON_HAND, -4) ∧
    commitBatch ⟨true, some 0, []⟩ [⟨"ADJUST", 5, none, none, none⟩]
      = .error ⟨"VALIDATION_ERROR", 400⟩ ∧
    applyBatchRaw ⟨true, some 0, []⟩ [⟨"ADJUST", 5, none, none, none⟩] = ⟨true, some 0, []⟩ :=
  ⟨(C4_intent_resolution.1 ⟨TxType.OUT, 4, none, none, none⟩).2.1 rfl,
   (C4_intent_resolution.2 ⟨"ADJUST", 5, none, none, none⟩
      [⟨"ADJUST", 5, none, none, none⟩] ⟨true, some 0, []⟩ (List.mem_singleton.mpr rfl)
      (Or.inr (Or.inr (Or.inr (Or.inl ⟨rfl, rfl⟩))))).1,
   (C4_intent_resolution.2 ⟨"ADJUST", 5, none, none, none⟩
      [⟨"ADJUST", 5, none, none, none⟩] ⟨true, some 0, []⟩ (List.mem_singleton.mpr rfl)
      (Or.inr (Or.inr (Or.inr (Or.inl ⟨rfl, rfl⟩))))).2⟩

/-- C6 counterexample: the claim "a second commit attempt reusing the
key fails with DUPLICATE_REQUEST_ID" is false as stated.  After
committing IN 5 and then OUT 5 under key 7 (both successful commits
from the fresh state, so the state below is reachable), resubmitting
the same OUT 5 batch with key 7 fails with `INSUFFICIENT_ON_HAND`
(the invariant checks run before the duplicate-key constraint), not
with `DUPLICATE_REQUEST_ID`. -/
theorem C6_counterexample :
    Reachable ⟨true, some 2,
      [⟨TxType.IN, Bucket.ON_HAND, 5, none, none⟩,
       ⟨TxType.OUT, Bucket.ON_HAND, -5, none, some 7⟩]⟩ ∧
    (⟨TxType.OUT, Bucket.ON_HAND, -5, none, some 7⟩ : InventoryTx) ∈
      ([⟨TxType.IN, Bucket.ON_HAND, 5, none, none⟩,
        ⟨TxType.OUT, Bucket.ON_HAND, -5, none, some 7⟩] : List InventoryTx) ∧
    create_txs ⟨true, some 2,
        [⟨TxType.IN, Bucket.ON_HAND, 5, none, none⟩,
         ⟨TxType.OUT, Bucket.ON_HAND, -5, none, some 7⟩]⟩
      [⟨TxType.OUT, 5, none, none, some 7⟩] = .error ⟨"INSUFFICIENT_ON_HAND", 409⟩ ∧
    create_txs ⟨true, some 2,
        [⟨TxType.IN, Bucket.ON_HAND, 5, none, none⟩,
         ⟨TxType.OUT, Bucket.ON_HAND, -5, none, some 7⟩]⟩
      [⟨TxType.OUT, 5, none, none, some 7⟩] ≠ .error ⟨"DUPLICATE_REQUEST_ID", 409⟩ := by
  refine ⟨?_, by simp, rfl, ?_⟩
  · exact @Reachable.commit
      ⟨true, some 1, [⟨TxType.IN, Bucket.ON_HAND, 5, none, none⟩]⟩
      [⟨TxType.OUT, 5, none, none, some 7⟩]
      ([⟨TxType.OUT, Bucket.ON_HAND, -5, none, some 7⟩], ⟨0, 0, 0⟩,
       ⟨true, some 2,
        [⟨TxType.IN, Bucket.ON_HAND, 5, none, none⟩,
         ⟨TxType.OUT, Bucket.ON_HAND, -5, none, some 7⟩]⟩)
      (@Reachable.commit initState
        [⟨TxType.IN, 5, none, none, none⟩]
        ([⟨TxType.IN, Bucket.ON_HAND, 5, none, none⟩], ⟨5, 0, 5⟩,
         ⟨true, some 1, [⟨TxType.IN, Bucket.ON_HAND, 5, none, none⟩]⟩)
        Reachable.init rfl)
      rfl
  · intro h
    have hcontr : (⟨"INSUFFICIENT_ON_HAND", 409⟩ : AppError)
        = ⟨"DUPLICATE_REQUEST_ID", 409⟩ :=
      Except.error.inj
        ((show create_txs ⟨true, some 2,
            [⟨TxType.IN, Bucket.ON_HAND, 5, none, none⟩,
             ⟨TxType.OUT, Bucket.ON_HAND, -5, none, some 7⟩]⟩
          [⟨TxType.OUT, 5, none, none, some 7⟩]
            = .error ⟨"INSUFFICIENT_ON_HAND", 409⟩ from rfl).symm.trans h)
    exact absurd hcontr (by decide)

/-- C6 (amended): an idempotency key backs at most one committed ledger
entry in every reachable state; a commit attempt whose keys collide
(against previously committed entries or within the same batch) fails
with `DUPLICATE_REQUEST_ID` whenever it passes the earlier guards
(active product, stock head present, net invariants non-negative); and
every failed attempt leaves the committed state unchanged. -/
theorem C6_idempotency_amended :
    (∀ s : ProductState, Reachable s → (usedKeys s.entries).Nodup) ∧
    (∀ (s : ProductState) (txs : List TxCreate) (v : Nat),
      s.active = true → s.head = some v →
      0 ≤ new_on_hand s txs → 0 ≤ new_reserved s txs →
      0 ≤ new_on_hand s txs - new_reserved s txs →
      ¬ (usedKeys s.entries ++ usedKeys (txs.map mkEntry)).Nodup →
      create_txs s txs = .error ⟨"DUPLICATE_REQUEST_ID", 409⟩) ∧
    (∀ (s : ProductState) (txs : List TxCreate) (e : AppError),
      create_txs s txs = .error e → applyBatch s txs = s) := by
  refine ⟨?_, ?_, ?_⟩
  · intro s h
    induction h with
    | init => simp [initState, usedKeys]
    | commit h hc ih =>
      obtain ⟨-, -, -, -, hent, hnd, -⟩ := create_txs_ok_spec hc
      rw [hent]
      simpa [usedKeys, List.filterMap_append] using hnd
    | deactivate h ih => simpa using ih
  · intro s txs v hactive hhead hoh hres hav hdup
    rw [create_txs_run s txs v hactive hhead,
      if_neg (not_lt.mpr hoh), if_neg (not_lt.mpr hres), if_neg (not_lt.mpr hav)]
    simp [insertViolatesUnique, hdup]
  · intro s txs e h
    simp [applyBatch, h]

/-- Witness for the amended C6: the fresh state has no duplicate keys,
and reusing key 7 against a committed entry (with all earlier guards
passing) fails with `DUPLICATE_REQUEST_ID`. -/
theorem C6_idempotency_amended_witness :
    (usedKeys initState.entries).Nodup ∧
    create_txs ⟨true, some 0, [⟨TxType.IN, Bucket.ON_HAND, 5, none, some 7⟩]⟩
      [⟨TxType.IN, 1, none, none, some 7⟩] = .error ⟨"DUPLICATE_REQUEST_ID", 409⟩ :=
  ⟨C6_idempotency_amended.1 initState Reachable.init,
   C6_idempotency_amended.2.1 ⟨true, some 0, [⟨TxType.IN, Bucket.ON_HAND, 5, none, some 7⟩]⟩
     [⟨TxType.IN, 1, none, none, some 7⟩] 0 rfl rfl (by decide) (by decide) (by decide)
     (by decide)⟩

/-- C7: the stock projection is the per-bucket grouped sum of the
committed entries' signed deltas, with an empty ledger projecting to
zero, `available = on_hand - reserved`, additivity over concatenation,
and independence of batch boundaries: committing `A ++ B` as one batch
yields the same final stock level and the same final ledger as
committing `A` then `B` separately, whenever both runs succeed. -/
theorem C7_fold_correctness :
    calc_stock [] = ⟨0, 0, 0⟩ ∧
    (∀ entries : List InventoryTx,
      (calc_stock entries).on_hand = sumBucket entries Bucket.ON_HAND ∧
      (calc_stock entries).reserved = sumBucket entries Bucket.RESERVED ∧
      (calc_stock entries).available
        = (calc_stock entries).on_hand - (calc_stock entries).reserved) ∧
    (∀ l₁ l₂ : List InventoryTx,
      (calc_stock (l₁ ++ l₂)).on_hand = (calc_stock l₁).on_hand + (calc_stock l₂).on_hand ∧
      (calc_stock (l₁ ++ l₂)).reserved = (calc_stock l₁).reserved + (calc_stock l₂).reserved) ∧
    (∀ (s : ProductState) (A B : List TxCreate)
        (outAB outA outB : List InventoryTx × StockLevel × ProductState),
      create_txs s (A ++ B) = .ok outAB →
      create_txs s A = .ok outA →
      create_txs outA.2.2 B = .ok outB →
      outAB.2.1 = outB.2.1 ∧ outAB.2.2.entries = outB.2.2.entries) := by
  refine ⟨rfl, fun entries => ⟨rfl, rfl, rfl⟩,
    fun l₁ l₂ => ⟨by simp [calc_stock, sumBucket_append],
                  by simp [calc_stock, sumBucket_append]⟩, ?_⟩
  intro s A B outAB outA outB hAB hA hB
  obtain ⟨-, -, hc1, -, he1, -⟩ := create_txs_ok_spec hAB
  obtain ⟨-, -, hc2, -, he2, -⟩ := create_txs_ok_spec hA
  obtain ⟨-, -, hc3, -, he3, -⟩ := create_txs_ok_spec hB
  have hent : outAB.2.2.entries = outB.2.2.entries := by
    rw [he1, hc1, he3, hc3, he2, hc2, List.map_append, List.append_assoc]
  exact ⟨by rw [create_txs_ok_level hAB, create_txs_ok_level hB, hent], hent⟩

/-- Witness for C7: committing IN 2 then OUT 1 in one batch or in two
batches from the fresh state ends in the same stock level and ledger. -/
theorem C7_fold_correctness_witness :
    (⟨1, 0, 1⟩ : StockLevel) = ⟨1, 0, 1⟩ ∧
    ([⟨TxType.IN, Bucket.ON_HAND, 2, none, none⟩,
      ⟨TxType.OUT, Bucket.ON_HAND, -1, none, none⟩] : List InventoryTx)
      = [⟨TxType.IN, Bucket.ON_HAND, 2, none, none⟩,
         ⟨TxType.OUT, Bucket.ON_HAND, -1, none, none⟩] :=
  C7_fold_correctness.2.2.2 initState
    [⟨TxType.IN, 2, none, none, none⟩] [⟨TxType.OUT, 1, none, none, none⟩]
    ([⟨TxType.IN, Bucket.ON_HAND, 2, none, none⟩,
      ⟨TxType.OUT, Bucket.ON_HAND, -1, none, none⟩],
     ⟨1, 0, 1⟩,
     ⟨true, some 1,
      [⟨TxType.IN, Bucket.ON_HAND, 2, none, none⟩,
       ⟨TxType.OUT, Bucket.ON_HAND, -1, none, none⟩]⟩)
    ([⟨TxType.IN, Bucket.ON_HAND, 2, none, none⟩], ⟨2, 0, 2⟩,
     ⟨true, some 1, [⟨TxType.IN, Bucket.ON_HAND, 2, none, none⟩]⟩)
    ([⟨TxType.OUT, Bucket.ON_HAND, -1, none, none⟩], ⟨1, 0, 1⟩,
     ⟨true, some 2,
      [⟨TxType.IN, Bucket.ON_HAND, 2, none, none⟩,
       ⟨TxType.OUT, Bucket.ON_HAND, -1, none, none⟩]⟩)
    rfl rfl rfl

/-- Witness for C10 on an active product with a valid intent and no
stock-head row. -/
theorem C10_missing_stock_head_conflict_witness :
    create_txs ⟨true, none, []⟩ [⟨TxType.IN, 1, none, none, none⟩]
      = .error ⟨"CONFLICT", 409⟩ ∧
    applyBatch ⟨true, none, []⟩ [⟨TxType.IN, 1, none, none, none⟩] = ⟨true, none, []⟩ :=
  C10_missing_stock_head_conflict ⟨true, none, []⟩ [⟨TxType.IN, 1, none, none, none⟩] rfl rfl

/-! C8 and C9: query layer claims. -/

/-- The three-item seed of `tests/test_stock_api.py`
(`_seed_three_items`): A on-hand 100 at price 1000, B 50 at 5000,
C 200 at 200, so quantity ranks C > A > B while value ranks
B > A > C. -/
def topSeedDb : List (Item × List InventoryTx) :=
  [(⟨"A-001", "Item A", 1000, 5, true⟩, [⟨TxType.IN, Bucket.ON_HAND, 100, none, none⟩]),
   (⟨"B-002", "Item B", 5000, 5, true⟩, [⟨TxType.IN, Bucket.ON_HAND, 50, none, none⟩]),
   (⟨"C-003", "Item C", 200, 5, true⟩, [⟨TxType.IN, Bucket.ON_HAND, 200, none, none⟩])]

/-- C8: `query_stock_top` ranks by on-hand quantity only — it has no
metric input at all, while its router caller passes one.  Evaluated on
the repository's own three-item test seed with limit 2, it returns
C-003 then A-001 (quantity order) with B-002 aggregated into the
others bucket; the repository's `test_top_value_order` expects B-002
then A-001 for `metric=value`, which no run of the source function can
produce. -/
theorem C8_query_stock_top_qty_only :
    (query_stock_top topSeedDb 2 false).1.map (fun it => it.code) = ["C-003", "A-001"] ∧
    (query_stock_top topSeedDb 2 false).2.on_hand = 50 ∧
    (["C-003", "A-001"] : List String) ≠ ["B-002", "A-001"] := by
  decide

/-- C9 counterexample: the category of a product is not always the
first whitespace-delimited token of its name.  For the valid name
`" A"` (leading ordinary space) the code returns the whole name `" A"`
(the `token or name` fallback), not the first token `"A"`. -/
theorem C9_category_counterexample :
    _extract_category " A" = " A" ∧
    firstTokenSpec " A" = "A" ∧
    _extract_category " A" ≠ firstTokenSpec " A" := by
  decide

instance : IsTotal (String × Int) catOrder :=
  ⟨fun a b => le_total b.2 a.2⟩

instance : IsTrans (String × Int) catOrder :=
  ⟨fun _ _ _ hab hbc => le_trans hbc hab⟩

theorem sum_addToCat (m : List (String × Int)) (k : String) (v : Int) :
    ((addToCat m k v).map (fun p => p.2)).sum = (m.map (fun p => p.2)).sum + v := by
  induction m with
  | nil => simp [addToCat]
  | cons a as ih =>
    cases a with
    | mk k' v' =>
      by_cases h : k' = k
      · simp [addToCat, h]
        ring
      · simp [addToCat, h, ih]
        ring

theorem sum_foldl_addToCat (rows : List StockRow) (metric : String)
    (m : List (String × Int)) :
    (((rows.foldl
        (fun acc r => addToCat acc (_extract_category r.name) (categoryMetricValue metric r))
        m)).map (fun p => p.2)).sum
      = (m.map (fun p => p.2)).sum + (rows.map (fun r => categoryMetricValue metric r)).sum := by
  induction rows generalizing m with
  | nil => simp
  | cons r rs ih =>
    simp only [List.foldl_cons, List.map_cons, List.sum_cons, ih, sum_addToCat]
    ring

theorem sum_categoryTotals (db : List (Item × List InventoryTx)) (metric : String) :
    ((categoryTotals db metric).map (fun p => p.2)).sum
      = ((categoryRows db).map (fun r => categoryMetricValue metric r)).sum := by
  simpa using sum_foldl_addToCat (categoryRows db) metric []

theorem sum_sortedCats (db : List (Item × List InventoryTx)) (metric : String) :
    ((sortedCats db metric).map (fun p => p.2)).sum
      = ((categoryTotals db metric).map (fun p => p.2)).sum :=
  List.Perm.sum_eq (List.Perm.map _ (List.perm_insertionSort catOrder (categoryTotals db metric)))

/-- C9 (amended): the category of a product is the first
whitespace-delimited token of its name whenever the name does not begin
with a separator (ordinary and full-width spaces being equivalent; a
name beginning with separators falls back to the whole name, per the
counterexample); per-category metric values are grouped and summed in
first-occurrence order, sorted descending (stably), the returned total
is the sum over all categories (equally, over all active rows), and the
breakdown is the whole sorted list when it fits in `limit`, otherwise
the top `limit` categories plus an `OTHER` bucket holding the sum of
the remaining categories, the two parts adding up to the total. -/
theorem C9_category_aggregation_amended :
    (∀ name : String, name.data.takeWhile (fun c => !isSepChar c) ≠ [] →
      _extract_category name = firstTokenSpec name) ∧
    (∀ (db : List (Item × List InventoryTx)) (metric : String) (limit : Nat),
      List.Sorted catOrder (sortedCats db metric) ∧
      (query_stock_by_category db metric limit).1
        = ((sortedCats db metric).map (fun p => p.2)).sum ∧
      (query_stock_by_category db metric limit).1
        = ((categoryRows db).map (fun r => categoryMetricValue metric r)).sum ∧
      ((sortedCats db metric).length ≤ limit →
        (query_stock_by_category db metric limit).2
          = (sortedCats db metric).map (fun p => (p.1, p.1, p.2))) ∧
      (limit < (sortedCats db metric).length →
        (query_stock_by_category db metric limit).2
          = ((sortedCats db metric).take limit).map (fun p => (p.1, p.1, p.2))
            ++ [("OTHER", "その他",
                 (((sortedCats db metric).drop limit).map (fun p => p.2)).sum)] ∧
        (query_stock_by_category db metric limit).1
          = (((sortedCats db metric).take limit).map (fun p => p.2)).sum
            + (((sortedCats db metric).drop limit).map (fun p => p.2)).sum)) := by
  constructor
  · intro name h
    cases hd : name.data with
    | nil => rw [hd] at h; simp at h
    | cons c cs =>
      have hc : isSepChar c = false := by
        by_contra hcc
        rw [hd, List.takeWhile_cons] at h
        simp [eq_true_of_ne_false hcc] at h
      unfold _extract_category firstTokenSpec
      rw [hd, List.dropWhile_cons, hc]
      simp [List.takeWhile_cons, hc]
  · intro db metric limit
    have htot : (query_stock_by_category db metric limit).1
        = ((sortedCats db metric).map (fun p => p.2)).sum := by
      simp only [query_stock_by_category]
      split <;> rfl
    refine ⟨List.sorted_insertionSort catOrder (categoryTotals db metric), htot,
      by rw [htot, sum_sortedCats, sum_categoryTotals], ?_, ?_⟩
    · intro h
      simp only [query_stock_by_category]
      rw [if_neg (not_lt.mpr h), List.take_of_length_le h]
    · intro h
      refine ⟨?_, ?_⟩
      · simp only [query_stock_by_category]
        rw [if_pos h]
      · rw [htot]
        conv_lhs => rw [← List.take_append_drop limit (sortedCats db metric)]
        rw [List.map_append, List.sum_append]

/-- The categorised seed of `tests/test_stock_category_api.py`
(`_seed_categorised_items`): stainless pipe qty 10, copper pipe 20,
valve 5. -/
def catSeedDb : List (Item × List InventoryTx) :=
  [(⟨"SC-S01", "ステンレスパイプ 25A", 2500, 0, true⟩,
    [⟨TxType.IN, Bucket.ON_HAND, 10, none, none⟩]),
   (⟨"SC-C01", "銅パイプ 15A", 1500, 0, true⟩,
    [⟨TxType.IN, Bucket.ON_HAND, 20, none, none⟩]),
   (⟨"SC-V01", "バルブ ボール型", 5000, 0, true⟩,
    [⟨TxType.IN, Bucket.ON_HAND, 5, none, none⟩])]

/-- Witness for the amended C9 at the repository's category test seed
with `metric=qty` and limit 2: the first-token rule on a clean name,
and the OTHER bucket over the third category. -/
theorem C9_category_aggregation_amended_witness :
    _extract_category "A B" = firstTokenSpec "A B" ∧
    ((query_stock_by_category catSeedDb "qty" 2).2
        = ((sortedCats catSeedDb "qty").take 2).map (fun p => (p.1, p.1, p.2))
          ++ [("OTHER", "その他",
               (((sortedCats catSeedDb "qty").drop 2).map (fun p => p.2)).sum)] ∧
     (query_stock_by_category catSeedDb "qty" 2).1
        = (((sortedCats catSeedDb "qty").take 2).map (fun p => p.2)).sum
          + (((sortedCats catSeedDb "qty").drop 2).map (fun p => p.2)).sum) :=
  ⟨C9_category_aggregation_amended.1 "A B" (by decide),
   (C9_category_aggregation_amended.2 catSeedDb "qty" 2).2.2.2.2 (by decide)⟩

end PipeStock
